import Mathlib

/-!
Shallow embedding of the reverse-engineering core of the `shpitto_tools`
repository (section extraction, layout inference, semantic classification,
design-token extraction, and the composer's override logic), together with
theorems settling the specification claims about it.

Python/JS floats are modelled as rationals (`ℚ`), Python `int` as `ℤ`/`ℕ`,
Python `None` as `Option`, and an uncaught Python exception as
`Except.error`.  Unicode-sensitive operations (`str.lower`, `\d`, `\s`)
are modelled on their ASCII behaviour, which is all the claims exercise.
-/

unseal Rat.add Rat.sub Rat.mul Rat.inv

namespace Shpitto

/-! ### Python string primitives -/

/-- ASCII model of Python `str.lower()`. -/
def pyLower (s : String) : String := String.mk (s.data.map Char.toLower)

/-- Fuelled worker for Python `str.replace(pat, rep)`: non-overlapping
replacement, scanning left to right. -/
def replaceGo (pat rep : List Char) : Nat → List Char → List Char
  | 0, cs => cs
  | _, [] => []
  | fuel + 1, c :: rest =>
    if pat ≠ [] ∧ pat.isPrefixOf (c :: rest) then
      rep ++ replaceGo pat rep fuel ((c :: rest).drop pat.length)
    else c :: replaceGo pat rep fuel rest

/-- Python `s.replace(pat, rep)` for nonempty patterns. -/
def pyReplace (s pat rep : String) : String :=
  String.mk (replaceGo pat.data rep.data s.data.length s.data)

/-- Worker for Python `s.split(sep)` with a one-character separator. -/
def splitOnCharGo (sep : Char) : List Char → List Char → List String
  | [], cur => [String.mk cur.reverse]
  | c :: rest, cur =>
    if c = sep then String.mk cur.reverse :: splitOnCharGo sep rest []
    else splitOnCharGo sep rest (c :: cur)

/-- Python `s.split(sep)` for a one-character separator (keeps empty
pieces, as Python does). -/
def pySplitChar (s : String) (sep : Char) : List String :=
  splitOnCharGo sep s.data []

/-- Whitespace test used by Python `str.strip()` and the regex class `\s`
(ASCII part). -/
def isPySpace (c : Char) : Bool :=
  c = ' ' ∨ c = '\t' ∨ c = '\n' ∨ c = '\r' ∨ c = '\x0b' ∨ c = '\x0c'

/-- Python `str.strip()` (whitespace on both ends). -/
def pyStrip (s : String) : String :=
  String.mk (((s.data.dropWhile isPySpace).reverse.dropWhile isPySpace).reverse)

/-- Membership of a pattern as a contiguous infix of a character list
(Python's `pat in s`). -/
def infixOfList (pat : List Char) : List Char → Bool
  | [] => pat.isEmpty
  | c :: rest => pat.isPrefixOf (c :: rest) || infixOfList pat rest

/-- Python `pat in s` substring test. -/
def containsSub (s pat : String) : Bool := infixOfList pat.data s.data

/-- First character is an ASCII digit. -/
def headDigit : List Char → Bool
  | d :: _ => d.isDigit
  | [] => false

/-- First character matches the regex class `\s`. -/
def headSpace : List Char → Bool
  | d :: _ => isPySpace d
  | [] => false

/-- Length of the maximal digit run at the head of the list (the greedy
match of `\d+`). -/
def digitRun : List Char → Nat
  | c :: rest => if c.isDigit then digitRun rest + 1 else 0
  | [] => 0

/-- Fuelled scanner counting non-overlapping matches of `https?://`,
as `re.findall(r"https?://", text)` does. -/
def countHttpGo : Nat → List Char → Nat
  | 0, _ => 0
  | _, [] => 0
  | fuel + 1, cs@(_ :: rest) =>
    if "https://".data.isPrefixOf cs then countHttpGo fuel (cs.drop 8) + 1
    else if "http://".data.isPrefixOf cs then countHttpGo fuel (cs.drop 7) + 1
    else countHttpGo fuel rest

/-- Number of `https?://` matches in a string. -/
def countHttp (s : String) : Nat := countHttpGo s.data.length s.data

/-- One position of the regex search
`[$¥€]\s?\d+|/mo|/yr|per month|monthly|年付|月付` (`_has_price_pattern`). -/
def pricePatternScan : List Char → Bool
  | [] => false
  | c :: rest =>
    ((c = '$' || c = '¥' || c = '€') &&
      (headDigit rest || (headSpace rest && headDigit rest.tail))) ||
    "/mo".data.isPrefixOf (c :: rest) || "/yr".data.isPrefixOf (c :: rest) ||
    "per month".data.isPrefixOf (c :: rest) ||
    "monthly".data.isPrefixOf (c :: rest) ||
    "年付".data.isPrefixOf (c :: rest) || "月付".data.isPrefixOf (c :: rest) ||
    pricePatternScan rest

/-- `_has_price_pattern`: regex search for
`[$¥€]\s?\d+|/mo|/yr|per month|monthly|年付|月付`. -/
def has_price_pattern (text : String) : Bool := pricePatternScan text.data

/-- Fuelled scanner for `re.findall(r"\d+%|\d+x|\d+k|\d+,\d+", text)`:
greedy digit runs followed by `%`/`x`/`k`, or two digit runs joined by a
comma; matches do not overlap and scanning resumes after each match. -/
def statsMatchesGo : Nat → List Char → Nat
  | 0, _ => 0
  | _, [] => 0
  | fuel + 1, cs@(c :: rest) =>
    if c.isDigit then
      let n := digitRun cs
      match cs.drop n with
      | '%' :: _ => statsMatchesGo fuel (cs.drop (n + 1)) + 1
      | 'x' :: _ => statsMatchesGo fuel (cs.drop (n + 1)) + 1
      | 'k' :: _ => statsMatchesGo fuel (cs.drop (n + 1)) + 1
      | ',' :: r2 =>
        if headDigit r2 then statsMatchesGo fuel (cs.drop (n + 1 + digitRun r2)) + 1
        else statsMatchesGo fuel rest
      | _ => statsMatchesGo fuel rest
    else statsMatchesGo fuel rest

/-- Number of `\d+%|\d+x|\d+k|\d+,\d+` matches in a string. -/
def statsMatches (s : String) : Nat := statsMatchesGo s.data.length s.data

/-- `_has_stats_pattern`: regex search for `\d+%|\d+x|\d+k|\d+,\d+`. -/
def has_stats_pattern (text : String) : Bool := statsMatches text ≠ 0

/-! ### Python numeric primitives -/

/-- Python `round` on an exact rational: round-half-to-even. -/
def pyRound (q : ℚ) : ℤ :=
  let f := ⌊q⌋
  let r := q - f
  if r < 1/2 then f
  else if 1/2 < r then f + 1
  else if f % 2 = 0 then f else f + 1

/-- Python `int(float)`: truncation toward zero. -/
def pyTrunc (q : ℚ) : ℤ := if q < 0 then ⌈q⌉ else ⌊q⌋

/-- Parse a decimal digit run to a natural number. -/
def digitsToNat : List Char → Nat → Nat
  | [], acc => acc
  | c :: rest, acc => digitsToNat rest (acc * 10 + (c.toNat - '0'.toNat))

/-- Python `int(s)` on an already-stripped string: optional sign and a
nonempty digit run, `None` otherwise. -/
def pyParseInt (s : String) : Option ℤ :=
  let cs := s.data
  let core : List Char → Option ℤ := fun ds =>
    if ds ≠ [] ∧ ds.all Char.isDigit then some (digitsToNat ds 0) else none
  match cs with
  | '-' :: rest => (core rest).map (fun n => -n)
  | '+' :: rest => core rest
  | _ => core cs

/-- Python `float(s)` on a stripped string, for the simple
`[sign] digits [ . digits ]` shapes the pipeline feeds it; `None` when the
string does not parse. -/
def pyParseFloat (s : String) : Option ℚ :=
  let cs := s.data
  let split : List Char → Option (ℚ) := fun ds =>
    match ds.splitOn '.' with
    | [ip] =>
      if ip ≠ [] ∧ ip.all Char.isDigit then some ((digitsToNat ip 0 : ℤ) : ℚ) else none
    | [ip, fp] =>
      if (ip ≠ [] ∨ fp ≠ []) ∧ ip.all Char.isDigit ∧ fp.all Char.isDigit then
        some ((digitsToNat ip 0 : ℚ) + (digitsToNat fp 0 : ℚ) / ((10 : ℚ) ^ fp.length))
      else none
    | _ => none
  match cs with
  | '-' :: rest => (split rest).map (fun q => -q)
  | '+' :: rest => split rest
  | _ => split cs

/-- Decidable equality for `Except` values. -/
instance {ε α : Type} [DecidableEq ε] [DecidableEq α] :
    DecidableEq (Except ε α) := fun a b =>
  match a, b with
  | .ok x, .ok y =>
    if h : x = y then .isTrue (by rw [h])
    else .isFalse (fun he => by cases he; exact h rfl)
  | .error x, .error y =>
    if h : x = y then .isTrue (by rw [h])
    else .isFalse (fun he => by cases he; exact h rfl)
  | .ok _, .error _ => .isFalse (fun he => by cases he)
  | .error _, .ok _ => .isFalse (fun he => by cases he)

/-! ### Semantic classifier (`pipelines/classifier.py`) -/

/-- The CTA phrase list `CTA_PHRASES`. -/
def CTA_PHRASES : List String :=
  ["get started", "book a demo", "request demo", "contact", "contact us",
   "buy now", "start free", "free trial", "立即", "咨询", "预约"]

/-- The signal record produced by `_build_signals`. -/
structure Signals where
  text_len : ℕ
  link_density : ℚ
  above_the_fold : Bool
  near_bottom : Bool
  near_top : Bool
  section_height : ℚ
  has_h1 : Bool
  has_cta_phrase : Bool
  has_price_pattern : Bool
  has_faq_pattern : Bool
  has_quote_pattern : Bool
  has_rating_pattern : Bool
  has_case_pattern : Bool
  has_integrations_pattern : Bool
  has_compare_pattern : Bool
  has_use_cases_pattern : Bool
  has_step_pattern : Bool
  has_support_pattern : Bool
  has_contact_pattern : Bool
  has_footer_pattern : Bool
  has_footer_tag : Bool
  has_form : Bool
  has_accordion_pattern : Bool
  has_stats_pattern : Bool
  has_table : Bool
  has_toggle_pattern : Bool
  grid_like : Bool
  repeat_items : Bool
  has_media : Bool
  has_points : Bool
  two_column_like : Bool
  img_count : ℕ
  card_count : ℕ
  near_hero : Bool
  deriving Repr, DecidableEq

/-- `_score`: records `"reason:points"` in the reasons trail and returns the
points (state passed explicitly). -/
def scoreStep (reason : String) (points : ℤ) (reasons : List String) :
    ℤ × List String :=
  (points, reasons ++ [reason ++ ":" ++ toString points])

/-- `_score_hero`.  NOTE the source uses `score -= _score(..., -25, ...)` and
`score -= _score(..., -15, ...)`: subtracting the negative points it just
recorded, so the running score goes UP by 25 / 15 there. -/
def score_hero (s : Signals) (reasons : List String) : ℤ × List String :=
  let acc : ℤ × List String := (0, reasons)
  let acc := if s.above_the_fold then
      let r := scoreStep "above_the_fold" 20 acc.2; (acc.1 + r.1, r.2)
    else acc
  let acc := if s.has_h1 then
      let r := scoreStep "has_h1" 25 acc.2; (acc.1 + r.1, r.2)
    else acc
  let acc := if s.has_cta_phrase then
      let r := scoreStep "cta_phrase" 15 acc.2; (acc.1 + r.1, r.2)
    else acc
  let acc := if s.link_density > 8/100 then
      let r := scoreStep "high_link_density" (-25) acc.2; (acc.1 - r.1, r.2)
    else acc
  let acc := if s.has_price_pattern then
      let r := scoreStep "price_pattern" (-15) acc.2; (acc.1 - r.1, r.2)
    else acc
  acc

/-- `_score_logo_cloud`. -/
def score_logo_cloud (s : Signals) (reasons : List String) : ℤ × List String :=
  let acc : ℤ × List String := (0, reasons)
  let acc := if s.img_count ≥ 6 then
      let r := scoreStep "img_count" 25 acc.2; (acc.1 + r.1, r.2)
    else acc
  let acc := if s.text_len < 200 then
      let r := scoreStep "low_text" 10 acc.2; (acc.1 + r.1, r.2)
    else acc
  let acc := if s.near_hero then
      let r := scoreStep "near_hero" 10 acc.2; (acc.1 + r.1, r.2)
    else acc
  acc

/-- `_score_testimonials`. -/
def score_testimonials (s : Signals) (reasons : List String) : ℤ × List String :=
  let acc : ℤ × List String := (0, reasons)
  let acc := if s.has_quote_pattern then
      let r := scoreStep "quote_pattern" 20 acc.2; (acc.1 + r.1, r.2)
    else acc
  let acc := if s.grid_like then
      let r := scoreStep "grid_like" 15 acc.2; (acc.1 + r.1, r.2)
    else acc
  let acc := if s.card_count ≥ 3 ∧ s.img_count ≥ 3 then
      let r := scoreStep "card_like" 10 acc.2; (acc.1 + r.1, r.2)
    else acc
  acc

/-- `_score_ratings`. -/
def score_ratings (s : Signals) (reasons : List String) : ℤ × List String :=
  let acc : ℤ × List String := (0, reasons)
  let acc := if s.has_rating_pattern then
      let r := scoreStep "rating_pattern" 30 acc.2; (acc.1 + r.1, r.2)
    else acc
  acc

/-- `_score_case_studies`. -/
def score_case_studies (s : Signals) (reasons : List String) : ℤ × List String :=
  let acc : ℤ × List String := (0, reasons)
  let acc := if s.has_case_pattern then
      let r := scoreStep "case_pattern" 20 acc.2; (acc.1 + r.1, r.2)
    else acc
  let acc := if s.grid_like then
      let r := scoreStep "grid_like" 10 acc.2; (acc.1 + r.1, r.2)
    else acc
  let acc := if s.card_count ≥ 3 ∧ s.img_count ≥ 2 then
      let r := scoreStep "card_like" 10 acc.2; (acc.1 + r.1, r.2)
    else acc
  acc

/-- `_score_feature_grid`. -/
def score_feature_grid (s : Signals) (reasons : List String) : ℤ × List String :=
  let acc : ℤ × List String := (0, reasons)
  let acc := if s.grid_like then
      let r := scoreStep "grid_like" 25 acc.2; (acc.1 + r.1, r.2)
    else acc
  let acc := if s.repeat_items then
      let r := scoreStep "repeat_items" 15 acc.2; (acc.1 + r.1, r.2)
    else acc
  let acc := if s.card_count ≥ 3 then
      let r := scoreStep "card_count" 15 acc.2; (acc.1 + r.1, r.2)
    else acc
  acc

/-- `_score_cards_grid`. -/
def score_cards_grid (s : Signals) (reasons : List String) : ℤ × List String :=
  let acc : ℤ × List String := (0, reasons)
  let acc := if s.grid_like then
      let r := scoreStep "grid_like" 20 acc.2; (acc.1 + r.1, r.2)
    else acc
  let acc := if s.card_count ≥ 3 then
      let r := scoreStep "card_count" 25 acc.2; (acc.1 + r.1, r.2)
    else acc
  let acc := if s.img_count ≥ 2 then
      let r := scoreStep "img_count" 10 acc.2; (acc.1 + r.1, r.2)
    else acc
  let acc := if s.repeat_items then
      let r := scoreStep "repeat_items" 10 acc.2; (acc.1 + r.1, r.2)
    else acc
  acc

/-- `_score_feature_media`. -/
def score_feature_media (s : Signals) (reasons : List String) : ℤ × List String :=
  let acc : ℤ × List String := (0, reasons)
  let acc := if s.has_media then
      let r := scoreStep "media" 25 acc.2; (acc.1 + r.1, r.2)
    else acc
  let acc := if s.has_points then
      let r := scoreStep "points" 15 acc.2; (acc.1 + r.1, r.2)
    else acc
  let acc := if s.two_column_like then
      let r := scoreStep "two_column" 10 acc.2; (acc.1 + r.1, r.2)
    else acc
  acc

/-- `_score_steps`. -/
def score_steps (s : Signals) (reasons : List String) : ℤ × List String :=
  let acc : ℤ × List String := (0, reasons)
  let acc := if s.has_step_pattern then
      let r := scoreStep "step_pattern" 20 acc.2; (acc.1 + r.1, r.2)
    else acc
  let acc := if s.repeat_items then
      let r := scoreStep "repeat_items" 10 acc.2; (acc.1 + r.1, r.2)
    else acc
  acc

/-- `_score_stats`. -/
def score_stats (s : Signals) (reasons : List String) : ℤ × List String :=
  let acc : ℤ × List String := (0, reasons)
  let acc := if s.has_stats_pattern then
      let r := scoreStep "stats_pattern" 25 acc.2; (acc.1 + r.1, r.2)
    else acc
  acc

/-- `_score_integrations`. -/
def score_integrations (s : Signals) (reasons : List String) : ℤ × List String :=
  let acc : ℤ × List String := (0, reasons)
  let acc := if s.has_integrations_pattern then
      let r := scoreStep "integrations_pattern" 20 acc.2; (acc.1 + r.1, r.2)
    else acc
  let acc := if s.grid_like then
      let r := scoreStep "grid_like" 10 acc.2; (acc.1 + r.1, r.2)
    else acc
  acc

/-- `_score_comparison`. -/
def score_comparison (s : Signals) (reasons : List String) : ℤ × List String :=
  let acc : ℤ × List String := (0, reasons)
  let acc := if s.has_table then
      let r := scoreStep "table" 25 acc.2; (acc.1 + r.1, r.2)
    else acc
  let acc := if s.has_compare_pattern then
      let r := scoreStep "compare_pattern" 10 acc.2; (acc.1 + r.1, r.2)
    else acc
  acc

/-- `_score_use_cases`. -/
def score_use_cases (s : Signals) (reasons : List String) : ℤ × List String :=
  let acc : ℤ × List String := (0, reasons)
  let acc := if s.has_use_cases_pattern then
      let r := scoreStep "use_cases_pattern" 15 acc.2; (acc.1 + r.1, r.2)
    else acc
  acc

/-- `_score_pricing`. -/
def score_pricing (s : Signals) (reasons : List String) : ℤ × List String :=
  let acc : ℤ × List String := (0, reasons)
  let acc := if s.has_price_pattern then
      let r := scoreStep "price_pattern" 30 acc.2; (acc.1 + r.1, r.2)
    else acc
  let acc := if s.grid_like then
      let r := scoreStep "grid_like" 15 acc.2; (acc.1 + r.1, r.2)
    else acc
  let acc := if s.has_toggle_pattern then
      let r := scoreStep "toggle" 15 acc.2; (acc.1 + r.1, r.2)
    else acc
  acc

/-- `_score_plan_compare`. -/
def score_plan_compare (s : Signals) (reasons : List String) : ℤ × List String :=
  let acc : ℤ × List String := (0, reasons)
  let acc := if s.has_table then
      let r := scoreStep "table" 25 acc.2; (acc.1 + r.1, r.2)
    else acc
  let acc := if s.has_compare_pattern then
      let r := scoreStep "compare_pattern" 15 acc.2; (acc.1 + r.1, r.2)
    else acc
  acc

/-- `_score_faq`. -/
def score_faq (s : Signals) (reasons : List String) : ℤ × List String :=
  let acc : ℤ × List String := (0, reasons)
  let acc := if s.has_faq_pattern then
      let r := scoreStep "faq" 20 acc.2; (acc.1 + r.1, r.2)
    else acc
  let acc := if s.has_accordion_pattern then
      let r := scoreStep "accordion" 25 acc.2; (acc.1 + r.1, r.2)
    else acc
  acc

/-- `_score_support`. -/
def score_support (s : Signals) (reasons : List String) : ℤ × List String :=
  let acc : ℤ × List String := (0, reasons)
  let acc := if s.has_support_pattern then
      let r := scoreStep "support" 20 acc.2; (acc.1 + r.1, r.2)
    else acc
  let acc := if s.link_density > 4/100 then
      let r := scoreStep "link_density" 10 acc.2; (acc.1 + r.1, r.2)
    else acc
  acc

/-- `_score_contact`. -/
def score_contact (s : Signals) (reasons : List String) : ℤ × List String :=
  let acc : ℤ × List String := (0, reasons)
  let acc := if s.has_contact_pattern then
      let r := scoreStep "contact" 20 acc.2; (acc.1 + r.1, r.2)
    else acc
  let acc := if s.has_form then
      let r := scoreStep "form" 25 acc.2; (acc.1 + r.1, r.2)
    else acc
  acc

/-- `_score_footer`. -/
def score_footer (s : Signals) (reasons : List String) : ℤ × List String :=
  let acc : ℤ × List String := (0, reasons)
  let acc := if s.has_footer_tag then
      let r := scoreStep "footer_tag" 60 acc.2; (acc.1 + r.1, r.2)
    else acc
  let acc := if s.near_bottom then
      let r := scoreStep "near_bottom" 25 acc.2; (acc.1 + r.1, r.2)
    else acc
  let acc := if s.link_density > 8/100 then
      let r := scoreStep "link_density" 25 acc.2; (acc.1 + r.1, r.2)
    else acc
  let acc := if s.has_footer_pattern then
      let r := scoreStep "footer_pattern" 15 acc.2; (acc.1 + r.1, r.2)
    else acc
  acc

/-- `_score_navbar`. -/
def score_navbar (s : Signals) (reasons : List String) : ℤ × List String :=
  let acc : ℤ × List String := (0, reasons)
  let acc := if s.near_top then
      let r := scoreStep "near_top" 20 acc.2; (acc.1 + r.1, r.2)
    else acc
  let acc := if s.link_density > 5/100 then
      let r := scoreStep "link_density" 15 acc.2; (acc.1 + r.1, r.2)
    else acc
  let acc := if s.section_height < 160 then
      let r := scoreStep "short_height" 10 acc.2; (acc.1 + r.1, r.2)
    else acc
  acc

/-- `_score_announcement`. -/
def score_announcement (s : Signals) (reasons : List String) : ℤ × List String :=
  let acc : ℤ × List String := (0, reasons)
  let acc := if s.near_top ∧ s.section_height < 80 then
      let r := scoreStep "banner_height" 30 acc.2; (acc.1 + r.1, r.2)
    else acc
  let acc := if s.text_len < 120 then
      let r := scoreStep "short_text" 10 acc.2; (acc.1 + r.1, r.2)
    else acc
  acc

/-- View of `section.get("layout", {})`: the keys read are `top`, `height`
and `width`, each defaulting to `0`. -/
structure Layout where
  top : ℚ := 0
  height : ℚ := 0
  width : ℚ := 0
  deriving Repr, DecidableEq

/-- The part of the section dict `classify_section` reads. -/
structure Section where
  layout : Layout := {}
  deriving Repr, DecidableEq

/-- The context dict passed to `classify_section`, with the `.get` defaults
used by `_build_signals`. -/
structure Context where
  text : String := ""
  viewport_height : ℚ := 900
  index : ℕ := 0
  total : ℕ := 1
  grid_like : Bool := false
  repeat_items : Bool := false
  has_media : Bool := false
  has_points : Bool := false
  two_column_like : Bool := false
  img_count : ℕ := 0
  card_count : ℕ := 0
  near_hero : Bool := false
  has_h1 : Bool := false
  has_footer_tag : Bool := false
  deriving Repr, DecidableEq

/-- `_build_signals`. -/
def build_signals (s : Section) (context : Context) : Signals :=
  let text := pyLower context.text
  let layout := s.layout
  let text_len := text.length
  let links := countHttp text
  let link_density : ℚ := (links : ℚ) / ((max text_len 1 : ℕ) : ℚ)
  { text_len := text_len
    link_density := link_density
    above_the_fold := layout.top < context.viewport_height * (9/10)
    near_bottom := context.index ≥ context.total - 2
    near_top := context.index == 0
    section_height := layout.height
    has_h1 := context.has_h1
    has_cta_phrase := CTA_PHRASES.any (fun p => containsSub text p)
    has_price_pattern := has_price_pattern text
    has_faq_pattern := containsSub text "faq" || containsSub text "常见问题" ||
      containsSub text "question"
    has_quote_pattern := containsSub text "\"" || containsSub text "“" ||
      containsSub text "testimonial"
    has_rating_pattern := containsSub text "★★★★★" || containsSub text "trustpilot" ||
      containsSub text "reviews"
    has_case_pattern := containsSub text "case study" || containsSub text "案例"
    has_integrations_pattern := containsSub text "integration" || containsSub text "集成"
    has_compare_pattern := containsSub text "comparison" || containsSub text "compare"
    has_use_cases_pattern := containsSub text "use case" || containsSub text "场景"
    has_step_pattern := containsSub text "step" || containsSub text "步骤" ||
      containsSub text "流程"
    has_support_pattern := containsSub text "docs" || containsSub text "documentation" ||
      containsSub text "支持"
    has_contact_pattern := containsSub text "contact" || containsSub text "联系我们"
    has_footer_pattern := containsSub text "privacy" || containsSub text "terms" ||
      containsSub text "©"
    has_footer_tag := context.has_footer_tag
    has_form := containsSub text "form" || containsSub text "email" ||
      containsSub text "phone"
    has_accordion_pattern := containsSub text "accordion"
    has_stats_pattern := has_stats_pattern text
    has_table := containsSub text "table"
    has_toggle_pattern := containsSub text "monthly" || containsSub text "yearly"
    grid_like := context.grid_like
    repeat_items := context.repeat_items
    has_media := context.has_media
    has_points := context.has_points
    two_column_like := context.two_column_like
    img_count := context.img_count
    card_count := context.card_count
    near_hero := context.near_hero }

/-- A scored hypothesis `{type, score, reasons, family}`. -/
structure Candidate where
  type : String
  score : ℤ
  reasons : List String
  family : String
  deriving Repr, DecidableEq

/-- The `add_candidate` helper of `classify_section`. -/
def mkCandidate (t : String) (p : ℤ × List String) (fam : String) : Candidate :=
  ⟨t, p.1, p.2, fam⟩

/-- One insertion step of the stable descending-by-score sort
(`sorted(candidates, key=score, reverse=True)`): walk past strictly greater
scores only, so that equal scores keep their original order. -/
def insertByScoreDesc (c : Candidate) : List Candidate → List Candidate
  | [] => [c]
  | d :: ds => if c.score < d.score then d :: insertByScoreDesc c ds
               else c :: d :: ds

/-- Stable sort of candidates by descending score. -/
def sortByScoreDesc (l : List Candidate) : List Candidate :=
  l.foldr insertByScoreDesc []

/-- The value returned by `classify_section`. -/
structure Classification where
  candidates : List Candidate
  family : String
  signals : Signals
  deriving Repr, DecidableEq

/-- `classify_section`: build signals, score all 21 archetypes (each scorer
starts from a fresh `reasons` list), sort descending by score, keep the top
5, and take the top candidate's family. -/
def classify_section (s : Section) (context : Context) : Classification :=
  let signals := build_signals s context
  let cands : List Candidate :=
    [ mkCandidate "HeroCentered.v1" (score_hero signals []) "Hero",
      mkCandidate "LogoCloud.v1" (score_logo_cloud signals []) "Proof",
      mkCandidate "TestimonialsGrid.v1" (score_testimonials signals []) "Proof",
      mkCandidate "RatingsSummary.v1" (score_ratings signals []) "Proof",
      mkCandidate "CaseStudies.v1" (score_case_studies signals []) "Proof",
      mkCandidate "FeatureGrid.v1" (score_feature_grid signals []) "Feature",
      mkCandidate "CardsGrid.v1" (score_cards_grid signals []) "Feature",
      mkCandidate "FeatureWithMedia.v1" (score_feature_media signals []) "Feature",
      mkCandidate "StepsTimeline.v1" (score_steps signals []) "Feature",
      mkCandidate "StatsKPI.v1" (score_stats signals []) "Feature",
      mkCandidate "IntegrationsGrid.v1" (score_integrations signals []) "Feature",
      mkCandidate "ComparisonTable.v1" (score_comparison signals []) "Feature",
      mkCandidate "UseCases.v1" (score_use_cases signals []) "Feature",
      mkCandidate "PricingCards.v1" (score_pricing signals []) "Pricing",
      mkCandidate "PlanComparison.v1" (score_plan_compare signals []) "Pricing",
      mkCandidate "FAQAccordion.v1" (score_faq signals []) "FAQ",
      mkCandidate "SupportLinks.v1" (score_support signals []) "Support",
      mkCandidate "ContactSection.v1" (score_contact signals []) "Contact",
      mkCandidate "Footer.v1" (score_footer signals []) "Skeleton",
      mkCandidate "Navbar.v1" (score_navbar signals []) "Skeleton",
      mkCandidate "AnnouncementBar.v1" (score_announcement signals []) "Skeleton" ]
  let sorted := sortByScoreDesc cands
  let family := match sorted with
    | c :: _ => c.family
    | [] => "Unknown"
  ⟨sorted.take 5, family, signals⟩

/-! ### Section composer (`pipelines/map.py`) -/

/-- Python `t in {...}` where `t` may be `None` (never a member). -/
def optMem (t : Option String) (set : List String) : Bool :=
  match t with
  | some s => decide (s ∈ set)
  | none => false

/-- The protected skeleton set of the classifier-override block. -/
def protectedSkeleton : List String :=
  ["Footer.v1", "Navbar.v1", "AnnouncementBar.v1"]

/-- The classifier-override block of `map_sections`: given the section's
currently assigned type, the classifier candidates and the available block
ids, return the resulting section type.  Mirrors the source exactly,
including the `else: section["type"] = top_type` branch taken when the
current type IS in the protected set. -/
def classifier_override (initialType : Option String)
    (candidates : List Candidate) (availableBlocks : List String) :
    Option String :=
  match candidates with
  | [] => initialType
  | top :: _ =>
    let topType := top.type
    let topScore := top.score
    let initialScore :=
      match candidates.find? (fun c => initialType = some c.type) with
      | some c => c.score
      | none => 0
    if topType ∈ availableBlocks then
      if optMem initialType protectedSkeleton = false then
        let threshold := max (initialScore + 10) 60
        if some topType ≠ initialType ∧ topScore ≥ threshold then some topType
        else initialType
      else some topType
    else initialType

/-- Atom bounding box (integer pixels, as consumed via `int(... or 0)`). -/
structure BBox where
  x : ℤ := 0
  y : ℤ := 0
  w : ℤ := 0
  h : ℤ := 0
  deriving Repr, DecidableEq

/-- A captured atom as read by the atom-rule detectors. -/
structure Atom where
  kind : String := ""
  text : Option String := none
  href : Option String := none
  src : Option String := none
  bbox : Option BBox := none
  deriving Repr, DecidableEq

/-- The `stats` dict of an atoms section (`int(stats.get(k) or 0)`). -/
structure AtomStats where
  images : ℤ := 0
  text : ℤ := 0
  headings : ℤ := 0
  links : ℤ := 0
  buttons : ℤ := 0
  deriving Repr, DecidableEq

/-- The atoms-section payload consumed by the atom-rule engine. -/
structure AtomsSection where
  atoms : List Atom := []
  stats : AtomStats := {}
  layoutPattern : Option String := none
  deriving Repr, DecidableEq

/-- `_atoms_text_blob`: joined stripped texts of heading/text/link/button
atoms, truncated to 1200 chars, lowercased. -/
def atoms_text_blob (a : AtomsSection) : String :=
  let parts := a.atoms.filterMap (fun atom =>
    if atom.kind = "heading" ∨ atom.kind = "text" ∨ atom.kind = "link" ∨
        atom.kind = "button" then
      match atom.text with
      | some t => if pyStrip t ≠ "" then some (pyStrip t) else none
      | none => none
    else none)
  pyLower (String.mk ((String.intercalate " " parts).data.take 1200))

/-- Count of a single character in a string (Python `s.count(c)`). -/
def countChar (s : String) (c : Char) : ℕ := s.data.count c

/-- `_atoms_logo_candidate`. -/
def atoms_logo_candidate (a : AtomsSection) : Bool × ℚ :=
  let s := a.stats
  if s.images ≥ 6 ∧ s.text ≤ 2 ∧ s.headings ≤ 1 ∧ s.links ≤ 3 ∧ s.buttons = 0
    then (true, 85/100)
  else if s.images ≥ 5 ∧ s.text ≤ 4 ∧ s.headings ≤ 2 ∧ s.links ≤ 4
    then (true, 65/100)
  else (false, 0)

/-- One position of the pricing regex of `_atoms_pricing_candidate`
(`[$¥€]\s?\d+|/mo|/yr|per month|monthly|年付|月付|价格|定价`). -/
def atomsPriceScan : List Char → Bool
  | [] => false
  | c :: rest =>
    ((c = '$' || c = '¥' || c = '€') &&
      (headDigit rest || (headSpace rest && headDigit rest.tail))) ||
    "/mo".data.isPrefixOf (c :: rest) || "/yr".data.isPrefixOf (c :: rest) ||
    "per month".data.isPrefixOf (c :: rest) ||
    "monthly".data.isPrefixOf (c :: rest) ||
    "年付".data.isPrefixOf (c :: rest) || "月付".data.isPrefixOf (c :: rest) ||
    "价格".data.isPrefixOf (c :: rest) || "定价".data.isPrefixOf (c :: rest) ||
    atomsPriceScan rest

/-- `_atoms_pricing_candidate`. -/
def atoms_pricing_candidate (a : AtomsSection) : Bool × ℚ :=
  let text_blob := atoms_text_blob a
  let hasPrice := atomsPriceScan text_blob.data
  let s := a.stats
  if hasPrice = true ∧ s.buttons + s.links ≥ 1 ∧ s.headings ≥ 1 then (true, 85/100)
  else if hasPrice then (true, 65/100)
  else (false, 0)

/-- `_atoms_faq_candidate`. -/
def atoms_faq_candidate (a : AtomsSection) : Bool × ℚ :=
  let blob := atoms_text_blob a
  let qmarks := countChar blob '?' + countChar blob '？'
  if containsSub blob "faq" || containsSub blob "常见问题" then (true, 85/100)
  else if qmarks ≥ 2 then (true, 7/10)
  else (false, 0)

/-- `_atoms_stats_candidate`. -/
def atoms_stats_candidate (a : AtomsSection) : Bool × ℚ :=
  let m := statsMatches (atoms_text_blob a)
  if m ≥ 3 then (true, 8/10)
  else if m = 2 then (true, 6/10)
  else (false, 0)

/-- The per-atom regex `^\s*\d+[\.)、]` of `_atoms_steps_candidate`,
applied to the stripped text. -/
def stepTextMatch (cs : List Char) : Bool :=
  let ds := cs.dropWhile isPySpace
  let n := digitRun ds
  decide (n ≠ 0) && (match ds.drop n with
    | c :: _ => c = '.' || c = ')' || c = '、'
    | [] => false)

/-- `_atoms_steps_candidate`. -/
def atoms_steps_candidate (a : AtomsSection) : Bool × ℚ :=
  let step_count := (a.atoms.filter (fun atom =>
    match atom.text with
    | some t => stepTextMatch (pyStrip t).data
    | none => false)).length
  let blob := atoms_text_blob a
  if step_count ≥ 3 ∨ containsSub blob "步骤" = true ∨ containsSub blob "step" = true
    then (true, 75/100)
  else (false, 0)

/-- `_atoms_testimonials_candidate`. -/
def atoms_testimonials_candidate (a : AtomsSection) : Bool × ℚ :=
  let blob := atoms_text_blob a
  let quotes := countChar blob '“' + countChar blob '"'
  let images := a.stats.images
  if images ≥ 2 ∧ (containsSub blob "testimonial" || containsSub blob "评价" ||
      containsSub blob "客户") = true then (true, 75/100)
  else if images ≥ 2 ∧ quotes ≥ 2 then (true, 65/100)
  else (false, 0)

/-- `_atoms_feature_candidate`. -/
def atoms_feature_candidate (a : AtomsSection) : Bool × ℚ :=
  let s := a.stats
  if s.headings ≥ 3 ∧ s.text ≥ 3 ∧ s.images ≥ 1 then (true, 6/10)
  else if s.headings ≥ 3 ∧ s.text ≥ 4 then (true, 55/100)
  else (false, 0)

/-- `_round_bucket` bucket key: `int(round(v / size) * size)`. -/
def bucketOf (v size : ℤ) : ℤ := pyRound ((v : ℚ) / (size : ℚ)) * size

/-- `max(_round_bucket(values, size).values() or [0])`: the largest bucket
multiplicity, `0` when there are no values. -/
def maxBucketCount (values : List ℤ) (size : ℤ) : ℕ :=
  let buckets := values.map (fun v => bucketOf v size)
  (buckets.map (fun b => buckets.count b)).foldr max 0

/-- `_atoms_cards_candidate`. -/
def atoms_cards_candidate (a : AtomsSection) : Bool × ℚ :=
  let atoms := a.atoms
  let s := a.stats
  let img_atoms := atoms.filter (fun x => x.kind = "image" ∧ x.bbox.isSome)
  let link_atoms := atoms.filter (fun x => x.kind = "link" ∨ x.kind = "button")
  let heading_atoms := atoms.filter (fun x => x.kind = "heading")
  let text_atoms := atoms.filter (fun x => x.kind = "text")
  let img_count := img_atoms.length
  let link_count := link_atoms.length
  let heading_count := heading_atoms.length
  let text_count := text_atoms.length
  let widths := (img_atoms.map (fun x => (x.bbox.getD {}).w)).filter (fun w => 0 < w)
  let heights := (img_atoms.map (fun x => (x.bbox.getD {}).h)).filter (fun h => 0 < h)
  let grid_like := maxBucketCount widths 20 ≥ 3 ∨ maxBucketCount heights 20 ≥ 3
  let logo_like := img_count ≥ 6 ∧ heading_count ≤ 1 ∧ text_count ≤ 1 ∧ link_count ≤ 2
  if logo_like then (false, 3/10)
  else
    let base_signal := (img_count ≥ 3 ∧ link_count + text_count + heading_count ≥ 3) ∨
      (img_count ≥ 4 ∧ heading_count ≥ 2)
    let score : ℚ :=
      if base_signal ∧ grid_like then 9/10
      else if base_signal then 6/10
      else if s.images ≥ 6 ∧ s.text ≤ 6 then 55/100
      else 0
    (decide (score ≥ 6/10), score)

/-- `_suggest_block_from_atoms`: the ordered cascade of atom-rule
detectors. -/
def suggest_block_from_atoms (a : AtomsSection) :
    Option String × ℚ × Option String :=
  let p := atoms_pricing_candidate a
  if p.1 then (some "PricingCards.v1", p.2, some "Pricing") else
  let f := atoms_faq_candidate a
  if f.1 then (some "FAQAccordion.v1", f.2, some "FAQ") else
  let st := atoms_stats_candidate a
  if st.1 then (some "StatsKPI.v1", st.2, some "Feature") else
  let sp := atoms_steps_candidate a
  if sp.1 then (some "StepsTimeline.v1", sp.2, some "Feature") else
  let lg := atoms_logo_candidate a
  if lg.1 then (some "LogoCloud.v1", lg.2, some "Proof") else
  let ts := atoms_testimonials_candidate a
  if ts.1 then (some "TestimonialsGrid.v1", ts.2, some "Proof") else
  let layoutStr := pyLower (a.layoutPattern.getD "")
  if containsSub layoutStr "split" then (some "FeatureWithMedia.v1", 85/100, some "Feature") else
  let cd := atoms_cards_candidate a
  if cd.1 then (some "CardsGrid.v1", cd.2, some "Feature") else
  let ft := atoms_feature_candidate a
  if ft.1 then (some "FeatureGrid.v1", ft.2, some "Feature") else
  (none, 0, none)

/-- Result of one composer stage: the (possibly reassigned) section type
and the updated candidates list. -/
structure StageResult where
  type : Option String
  candidates : List Candidate
  deriving Repr, DecidableEq

/-- The atom-rule block of `map_sections`: merge the suggestion at the head
of the candidates list, and reassign the section type only when the
suggestion differs from the current type, the current type is unprotected,
the integer confidence is ≥ 80, and the split-cards exception does not
apply. -/
def atom_rule_stage (a : AtomsSection) (availableBlocks : List String)
    (index : ℕ) (source : String) (currentType : Option String)
    (candidates : List Candidate) : StageResult :=
  match suggest_block_from_atoms a with
  | (none, _, _) => ⟨currentType, candidates⟩
  | (some suggestion, sScore, sFamily) =>
    if suggestion ≠ "" ∧ suggestion ∈ availableBlocks then
      let scoreInt : ℤ := pyTrunc (sScore * 100)
      let reasons := ["atoms_rule:" ++ toString scoreInt]
      let fam := match sFamily with
        | some f => if f = "" then "Feature" else f
        | none => "Feature"
      let top : Candidate := ⟨suggestion, scoreInt, reasons, fam⟩
      let protectedTypes :=
        ["Footer.v1", "Navbar.v1", "AnnouncementBar.v1", "LeadCaptureCTA.v1"] ++
        (if index = 0 then ["HeroCentered.v1"] else [])
      let shouldOverride : Bool :=
        decide (some suggestion ≠ currentType) &&
        !(optMem currentType protectedTypes) && decide (scoreInt ≥ 80)
      let isSplitCards : Bool :=
        decide (currentType = some "CardsGrid.v1") && containsSub source " - "
      let newType := if (shouldOverride && !isSplitCards) = true then some suggestion
        else currentType
      let newCands := top :: (candidates.filter (fun c => c.type ≠ suggestion)).take 4
      ⟨newType, newCands⟩
    else ⟨currentType, candidates⟩

/-! ### Layout inferencer and section extractor (`pipelines/capture.py`) -/

/-- A computed-style node as read by `_infer_layout_type`: only the bbox
drives the decision. -/
structure Node where
  x : ℚ := 0
  y : ℚ := 0
  w : ℚ := 0
  h : ℚ := 0
  deriving Repr, DecidableEq

/-- The x-centers collected from nodes with positive width and height. -/
def nodeCentersX (nodes : List Node) : List ℚ :=
  (nodes.filter (fun n => 0 < n.w ∧ 0 < n.h)).map (fun n => n.x + n.w / 2)

/-- The y-centers collected from nodes with positive width and height. -/
def nodeCentersY (nodes : List Node) : List ℚ :=
  (nodes.filter (fun n => 0 < n.w ∧ 0 < n.h)).map (fun n => n.y + n.h / 2)

/-- `_infer_layout_type`: the decision tree over atom centers.  The split
test precedes the grid test, exactly as in the source. -/
def infer_layout_type (nodes : List Node) : String :=
  if nodes.length < 3 then "stack" else
  let xs := nodeCentersX nodes
  let ys := nodeCentersY nodes
  match xs with
  | [] => "stack"
  | x0 :: xrest =>
    let minX := xrest.foldl min x0
    let maxX := xrest.foldl max x0
    let spanX := maxX - minX
    if spanX ≤ 0 then "stack" else
    let mid := minX + spanX * (1/2)
    let left := xs.filter (fun x => x < mid)
    let right := xs.filter (fun x => mid ≤ x)
    if left ≠ [] ∧ right ≠ [] ∧ 6 ≤ left.length + right.length then "split"
    else if 6 ≤ xs.length ∧
        2 ≤ (xs.map (fun x => pyRound (x / 80))).dedup.length ∧
        2 ≤ (ys.map (fun y => pyRound (y / 80))).dedup.length then "grid"
    else if 6 ≤ xs.length ∧
        (((((xs.zip ys).map (fun p => (pyRound (p.1 / 30), pyRound (p.2 / 30)))).dedup.length : ℕ) : ℚ)
          < (xs.length : ℚ) * (1/2)) then "overlap"
    else "stack"

/-- A candidate element rectangle (the `getBoundingClientRect` view used by
`_extract_section_boxes`). -/
structure Rect where
  left : ℚ := 0
  top : ℚ := 0
  width : ℚ := 0
  height : ℚ := 0
  deriving Repr, DecidableEq

/-- `rect.right = rect.left + rect.width`. -/
def Rect.right (r : Rect) : ℚ := r.left + r.width

/-- `rect.bottom = rect.top + rect.height`. -/
def Rect.bottom (r : Rect) : ℚ := r.top + r.height

/-- The `pushEl` size filter of `_extract_section_boxes`: a candidate is
kept iff it survives BOTH rejection checks
(`rect.height < 60 || rect.width < Math.min(320, viewportWidth * 0.4)`
and then `rect.width < viewportWidth * 0.5`). -/
def pushElKeeps (viewportWidth : ℚ) (r : Rect) : Bool :=
  if r.height < 60 ∨ r.width < min 320 (viewportWidth * (4/10)) then false
  else if r.width < viewportWidth * (5/10) then false
  else true

/-- The `iou` closure of `_extract_section_boxes`. -/
def iou (a b : Rect) : ℚ :=
  let x1 := max a.left b.left
  let y1 := max a.top b.top
  let x2 := min a.right b.right
  let y2 := min a.bottom b.bottom
  let inter := max 0 (x2 - x1) * max 0 (y2 - y1)
  let areaA := (a.right - a.left) * (a.bottom - a.top)
  let areaB := (b.right - b.left) * (b.bottom - b.top)
  let denom := areaA + areaB - inter
  if 0 < denom then inter / denom else 0

/-- The comparator `(a.top - b.top) || (b.height - a.height)`: `a` strictly
precedes `b` by ascending top, then descending height. -/
def rectBefore (a b : Rect) : Bool :=
  decide (a.top < b.top) || (decide (a.top = b.top) && decide (b.height < a.height))

/-- Stable insertion for the candidate sort (ES2019 `Array.sort` is
stable): walk past strict predecessors only. -/
def insertRect (r : Rect) : List Rect → List Rect
  | [] => [r]
  | s :: ss => if rectBefore s r then s :: insertRect r ss else r :: s :: ss

/-- Stable sort of the candidate rectangles by (top asc, height desc). -/
def sortRects (l : List Rect) : List Rect := l.foldr insertRect []

/-- The greedy suppression loop: an item is appended to the accepted list
iff no already-accepted rectangle overlaps it with IoU > 0.85
(first-seen wins). -/
def suppress (acc : List Rect) : List Rect → List Rect
  | [] => acc
  | r :: rs =>
    if acc.any (fun f => iou f r > 85/100) then suppress acc rs
    else suppress (acc ++ [r]) rs

/-- The geometry core of `_extract_section_boxes`: size-filter the
candidates, sort them by (top asc, height desc), and greedily suppress
near-duplicates. -/
def extract_section_boxes (viewportWidth : ℚ) (elems : List Rect) :
    List Rect :=
  suppress [] (sortRects (elems.filter (pushElKeeps viewportWidth)))

/-! ### Design-token extraction (`pipelines/theme.py`) -/

/-- Python `s.lstrip("#")`. -/
def lstripHash (s : String) : String := String.mk (s.data.dropWhile (· = '#'))

/-- Hexadecimal digit value (both cases, as `int(s, 16)` accepts). -/
def hexDigitVal (c : Char) : Option ℕ :=
  if c.isDigit then some (c.toNat - '0'.toNat)
  else if 'a' ≤ c ∧ c ≤ 'f' then some (c.toNat - 'a'.toNat + 10)
  else if 'A' ≤ c ∧ c ≤ 'F' then some (c.toNat - 'A'.toNat + 10)
  else none

/-- Python `int(s, 16)` on a 2-char slice; `none` models the `ValueError`. -/
def parseHex2 : List Char → Option ℕ
  | [a, b] => do
    let x ← hexDigitVal a
    let y ← hexDigitVal b
    pure (x * 16 + y)
  | _ => none

/-- `_rgb_channels_to_hsl`: linear RGB (0..1 channels) to the
`"H S% L%"` string. -/
def rgb_channels_to_hsl (r g b : ℚ) : String :=
  let max_c := max r (max g b)
  let min_c := min r (min g b)
  let l := (max_c + min_c) / 2
  let hs : ℚ × ℚ :=
    if max_c = min_c then (0, 0)
    else
      let d := max_c - min_c
      let s := if l > 1/2 then d / (2 - max_c - min_c) else d / (max_c + min_c)
      let h :=
        if max_c = r then (g - b) / d + (if g < b then 6 else 0)
        else if max_c = g then (b - r) / d + 2
        else (r - g) / d + 4
      (h / 6, s)
  toString (pyRound (hs.1 * 360)) ++ " " ++ toString (pyRound (hs.2 * 100)) ++
    "% " ++ toString (pyRound (l * 100)) ++ "%"

/-- Python `str.strip("rgb() ")`: remove the characters r/g/b/(/)/space
from both ends. -/
def stripRgbChars (s : String) : String :=
  let inSet := fun c => c = 'r' ∨ c = 'g' ∨ c = 'b' ∨ c = '(' ∨ c = ')' ∨ c = ' '
  String.mk (((s.data.dropWhile inSet).reverse.dropWhile inSet).reverse)

/-- `_rgb_to_hsl`: its `try/except (ValueError, IndexError)` turns parse
failures into `None`; fully transparent colors are also dropped. -/
def rgb_to_hsl (color : String) : Option String := do
  let values := pySplitChar (stripRgbChars (pyReplace color "rgba" "rgb")) ','
  let v0 ← values[0]?
  let v1 ← values[1]?
  let v2 ← values[2]?
  let r ← pyParseInt (pyStrip v0)
  let g ← pyParseInt (pyStrip v1)
  let b ← pyParseInt (pyStrip v2)
  let alpha : ℚ ← if values.length > 3 then
      (values[3]?).bind (fun v => pyParseFloat (pyStrip v))
    else some 1
  if alpha ≤ 1/100 then none
  else some (rgb_channels_to_hsl ((r : ℚ) / 255) ((g : ℚ) / 255) ((b : ℚ) / 255))

/-- `_hex_to_hsl`.  The rgb path and the malformed-shape paths return
`none`, but a 6-char hex string containing a non-hex digit reaches
`int(hex_value[0:2], 16)` OUTSIDE any `try`: that `ValueError` is modelled
as `Except.error`. -/
def hex_to_hsl (color : String) : Except String (Option String) := do
  if color = "" then return none
  let c := pyLower (pyStrip color)
  if "rgb".data.isPrefixOf c.data then return rgb_to_hsl c
  if ¬ "#".data.isPrefixOf c.data then return none
  let hexv := lstripHash c
  let hexv := if hexv.length = 3 then
      String.mk ((hexv.data.map (fun ch => [ch, ch])).flatten)
    else hexv
  if hexv.length ≠ 6 then return none
  match parseHex2 (hexv.data.take 2), parseHex2 ((hexv.data.drop 2).take 2),
      parseHex2 ((hexv.data.drop 4).take 2) with
  | some r, some g, some b =>
    return some (rgb_channels_to_hsl ((r : ℚ) / 255) ((g : ℚ) / 255) ((b : ℚ) / 255))
  | _, _, _ => throw "ValueError: invalid literal for int() with base 16"

/-- Python `str.split()` with no argument: split on whitespace runs,
dropping empty pieces. -/
def pySplitWsGo : List Char → List Char → List String
  | [], cur => if cur ≠ [] then [String.mk cur.reverse] else []
  | c :: rest, cur =>
    if isPySpace c then
      if cur ≠ [] then String.mk cur.reverse :: pySplitWsGo rest []
      else pySplitWsGo rest []
    else pySplitWsGo rest (c :: cur)

/-- Python `s.split()`. -/
def pySplitWs (s : String) : List String := pySplitWsGo s.data []

/-- `_parse_hsl`: `"H S% L%"` → integer triple, `None` on failure. -/
def parse_hsl (value : String) : Option (ℤ × ℤ × ℤ) := do
  if value = "" then none else
  let parts := pySplitWs (pyReplace value "%" "")
  if parts.length < 3 then none else do
  let a ← (parts[0]?).bind pyParseFloat
  let b ← (parts[1]?).bind pyParseFloat
  let c ← (parts[2]?).bind pyParseFloat
  some (pyTrunc a, pyTrunc b, pyTrunc c)

/-- The color fields of the produced token set. -/
structure ThemeColors where
  background : String := ""
  foreground : String := ""
  primary : String := ""
  primary_foreground : String := ""
  secondary : String := ""
  secondary_foreground : String := ""
  muted : String := ""
  muted_foreground : String := ""
  border : String := ""
  deriving Repr, DecidableEq

/-- The derived brand profile. -/
structure BrandProfile where
  color_mood : String
  color_tone : String
  contrast : String
  typography : String
  deriving Repr, DecidableEq

/-- `_brand_profile`.  Note `light` is the PRIMARY color's lightness and
the contrast flag compares it against the background lightness; the
foreground color is never consulted. -/
def brand_profile (colors : ThemeColors) (typographyBody : String) :
    BrandProfile :=
  let primary := (parse_hsl colors.primary).getD (220, 60, 50)
  let background := (parse_hsl colors.background).getD (0, 0, 100)
  let sat := primary.2.1
  let light := primary.2.2
  let bg_light := background.2.2
  let mood := if sat ≥ 60 then "vivid" else "muted"
  let tone := if light ≥ 60 then "bright" else "deep"
  let contrast := if |bg_light - light| ≥ 50 then "high" else "low"
  let bodyLower := pyLower typographyBody
  let typography :=
    if containsSub bodyLower "serif" = true ∧ containsSub bodyLower "sans" = false
    then "serif" else "sans"
  ⟨mood, tone, contrast, typography⟩

/-- Stable descending sort of `(key, count)` items by count
(`sorted(counts.items(), key=lambda x: x[1], reverse=True)`). -/
def insertCountDesc (p : String × ℤ) : List (String × ℤ) → List (String × ℤ)
  | [] => [p]
  | q :: qs => if p.2 < q.2 then q :: insertCountDesc p qs else p :: q :: qs

/-- Count map items sorted by descending count, insertion order preserved
among equal counts. -/
def sortCountsDesc (l : List (String × ℤ)) : List (String × ℤ) :=
  l.foldr insertCountDesc []

/-- `_top_count_value`. -/
def top_count_value (counts : List (String × ℤ)) : Option String :=
  match sortCountsDesc counts with
  | [] => none
  | p :: _ => some p.1

/-- `_top_n_values`. -/
def top_n_values (counts : List (String × ℤ)) (n : ℕ) : List String :=
  ((sortCountsDesc counts).take n).map (·.1)

/-- `_pick_root_var`: first key whose value is truthy. -/
def pick_root_var (root_vars : List (String × String)) :
    List String → Option String
  | [] => none
  | k :: ks =>
    match (root_vars.find? (fun p => p.1 = k)).map (·.2) with
    | some v => if v ≠ "" then some v else pick_root_var root_vars ks
    | none => pick_root_var root_vars ks

/-- Iteration of `_pick_vivid_color` over the count-sorted items; the
`_hex_to_hsl` call inside can raise. -/
def pick_vivid_go : List (String × ℤ) → Except String (Option String)
  | [] => pure none
  | (value, _) :: rest => do
    let hsl ← hex_to_hsl value
    match hsl with
    | none => pick_vivid_go rest
    | some h =>
      match parse_hsl h with
      | none => pick_vivid_go rest
      | some (_, sat, _) =>
        if sat ≥ 15 then pure (some value) else pick_vivid_go rest

/-- `_pick_vivid_color`: the first color in frequency order whose HSL
saturation is ≥ 15. -/
def pick_vivid_color (counts : List (String × ℤ)) :
    Except String (Option String) :=
  if counts = [] then pure none else pick_vivid_go (sortCountsDesc counts)

/-- `_extract_px_values`: positive integer pixel values parsed from the
keys of a count map; parse failures are skipped. -/
def extract_px_values (counts : List (String × ℤ)) : List ℤ :=
  let values := (counts.map (fun p =>
    (pySplitWs (pyReplace p.1 "," " ")).filterMap (fun token =>
      if "px".data.isSuffixOf token.data then
        (pyParseFloat (pyReplace token "px" "")).map pyTrunc
      else none))).flatten
  values.filter (fun v => 0 < v)

/-- A spacing scale. -/
structure Spacing where
  base : String
  scale : List String
  deriving Repr, DecidableEq

/-- Argmin of `(-count, value)`: the most frequent value, ties broken by
the smaller value (`sorted(freq.items(), key=lambda x: (-x[1], x[0]))[0][0]`). -/
def spacingArgmin (values : List ℤ) : ℤ :=
  match values.dedup with
  | [] => 0
  | v :: vs => vs.foldl (fun best w =>
      if values.count w > values.count best ∨
         (values.count w = values.count best ∧ w < best) then w else best) v

/-- `_infer_spacing_scale`. -/
def infer_spacing_scale (padding_counts margin_counts : List (String × ℤ)) :
    Option Spacing :=
  let values := extract_px_values padding_counts ++ extract_px_values margin_counts
  if values = [] then none
  else
    let base := spacingArgmin values
    let base := min (max base 4) 12
    let scale := [base, base * 2, base * 3, base * 4, base * 6]
    some ⟨toString base ++ "px", scale.map (fun v => toString v ++ "px")⟩

/-- The style-sample document consumed by `build_theme_tokens`
(`None` for missing keys, count maps as insertion-ordered items). -/
structure Samples where
  root_vars : List (String × String) := []
  body_color : Option String := none
  body_bg : Option String := none
  body_font : Option String := none
  heading_font : Option String := none
  link_color : Option String := none
  button_color : Option String := none
  button_bg : Option String := none
  button_radius : Option String := none
  border_color : Option String := none
  card_bg : Option String := none
  computed_bg_colors : List (String × ℤ) := []
  computed_text_colors : List (String × ℤ) := []
  computed_radius : List (String × ℤ) := []
  computed_fonts : List (String × ℤ) := []
  computed_padding : List (String × ℤ) := []
  computed_margin : List (String × ℤ) := []
  deriving Repr, DecidableEq

/-- Python `a or b or ... or dflt` over optional strings (empty and `None`
are falsy). -/
def firstTruthy (xs : List (Option String)) (dflt : String) : String :=
  match xs with
  | [] => dflt
  | x :: rest =>
    match x with
    | some s => if s ≠ "" then s else firstTruthy rest dflt
    | none => firstTruthy rest dflt

/-- The token document produced by `build_theme_tokens` (the `source` and
`w3c` fields, which only restructure already-computed values, are
omitted). -/
structure ThemeTokens where
  colors : ThemeColors
  typography_body : String
  typography_heading : String
  radius : String
  spacing : Spacing
  palette_text : List String
  palette_background : List String
  brand : BrandProfile
  deriving Repr, DecidableEq

/-- `build_theme_tokens`, in the `Except` monad: a `ValueError` escaping
`_hex_to_hsl` (reachable from the color fields and from
`_pick_vivid_color`) aborts the whole extraction, as in the source. -/
def build_theme_tokens (samples : Samples) : Except String ThemeTokens := do
  let root_vars := samples.root_vars
  let computed_bg := top_count_value samples.computed_bg_colors
  let computed_text := top_count_value samples.computed_text_colors
  let body_bg := firstTruthy [samples.body_bg, computed_bg] "#ffffff"
  let body_color := firstTruthy [samples.body_color, computed_text] "#0f172a"
  let button_bg ← match pick_root_var root_vars
      ["--primary", "--brand", "--color-primary"] with
    | some v => pure v
    | none => match samples.button_bg with
      | some v =>
        if v ≠ "" then pure v else do
          let vivid ← pick_vivid_color samples.computed_text_colors
          pure (firstTruthy [vivid] "#2563eb")
      | none => do
          let vivid ← pick_vivid_color samples.computed_text_colors
          pure (firstTruthy [vivid] "#2563eb")
  let button_color := firstTruthy
    [pick_root_var root_vars ["--primary-foreground", "--on-primary"],
     samples.button_color] "#ffffff"
  let link_color := firstTruthy
    [pick_root_var root_vars ["--link", "--color-link", "--accent"],
     samples.link_color] "#0ea5e9"
  let card_bg := firstTruthy
    [pick_root_var root_vars ["--card", "--surface", "--panel"],
     samples.card_bg] "#f8fafc"
  let border_color := firstTruthy
    [pick_root_var root_vars ["--border", "--line", "--stroke"],
     samples.border_color] "#e2e8f0"
  let computed_radius := top_count_value samples.computed_radius
  let radius := firstTruthy [samples.button_radius, computed_radius] "12px"
  let spacing := infer_spacing_scale samples.computed_padding samples.computed_margin
  let palette_text := top_n_values samples.computed_text_colors 3
  let palette_background := top_n_values samples.computed_bg_colors 3
  let bgHsl ← hex_to_hsl body_bg
  let fgHsl ← hex_to_hsl body_color
  let primaryHsl ← hex_to_hsl button_bg
  let primaryFgHsl ← hex_to_hsl button_color
  let secondaryHsl ← hex_to_hsl link_color
  let secondaryFgHsl ← hex_to_hsl body_color
  let mutedHsl ← hex_to_hsl card_bg
  let mutedFgHsl ← hex_to_hsl body_color
  let borderHsl ← hex_to_hsl border_color
  let colors : ThemeColors := {
    background := bgHsl.getD "0 0% 100%"
    foreground := fgHsl.getD "222 47% 11%"
    primary := primaryHsl.getD "221 83% 53%"
    primary_foreground := primaryFgHsl.getD "0 0% 100%"
    secondary := secondaryHsl.getD "199 89% 48%"
    secondary_foreground := secondaryFgHsl.getD "222 47% 11%"
    muted := mutedHsl.getD "210 40% 96%"
    muted_foreground := mutedFgHsl.getD "215 25% 27%"
    border := borderHsl.getD "214 32% 91%" }
  let typography_body := firstTruthy
    [samples.body_font, top_count_value samples.computed_fonts] "Inter"
  let typography_heading := firstTruthy
    [samples.heading_font, samples.body_font,
     top_count_value samples.computed_fonts] "Inter"
  let spacingOut := spacing.getD ⟨"8px", ["8px", "16px", "24px", "32px"]⟩
  let brand := brand_profile colors typography_body
  pure { colors := colors, typography_body := typography_body,
         typography_heading := typography_heading, radius := radius,
         spacing := spacingOut, palette_text := palette_text,
         palette_background := palette_background, brand := brand }

/-! ### Concrete inputs used by the claim theorems -/

/-- A signal set hitting both hero penalties: above the fold, link density
0.1 > 0.08, and a price pattern. -/
def heroBugSignals : Signals :=
  { text_len := 21, link_density := 1/10, above_the_fold := true,
    near_bottom := false, near_top := false, section_height := 0,
    has_h1 := false, has_cta_phrase := false, has_price_pattern := true,
    has_faq_pattern := false, has_quote_pattern := false,
    has_rating_pattern := false, has_case_pattern := false,
    has_integrations_pattern := false, has_compare_pattern := false,
    has_use_cases_pattern := false, has_step_pattern := false,
    has_support_pattern := false, has_contact_pattern := false,
    has_footer_pattern := false, has_footer_tag := false, has_form := false,
    has_accordion_pattern := false, has_stats_pattern := false,
    has_table := false, has_toggle_pattern := false, grid_like := false,
    repeat_items := false, has_media := false, has_points := false,
    two_column_like := false, img_count := 0, card_count := 0,
    near_hero := false }

/-- A short first section (height 50) whose classifier top candidate is
`AnnouncementBar.v1` (score 40). -/
def bannerCandidates : List Candidate :=
  (classify_section { layout := { height := 50 } } { index := 0, total := 5 }).candidates

/-- Style samples whose only content is a malformed 6-char hex body
background. -/
def malformedSamples : Samples := { body_bg := some "#zzzzzz" }

/-- The footer-like context: two bare links, a `©`, last-but-one index, and
a footer tag, giving `Footer.v1` score 125. -/
def footerCtx : Context :=
  { text := "https:// https:// © x", index := 5, total := 6,
    has_footer_tag := true }

/-- An atoms section whose text blob `"5% 10%"` contains exactly two stats
matches, so the atom-rule engine suggests `StatsKPI.v1` at confidence
0.6. -/
def statsAtoms : AtomsSection :=
  { atoms := [{ kind := "text", text := some "5% 10%" }] }

/-- The atoms section of the LogoCloud scenario: stats
`images=6, headings=1, text=4, buttons=0, links=0` and no atom texts. -/
def logoStats : AtomsSection :=
  { stats := { images := 6, text := 4, headings := 1, links := 0, buttons := 0 } }

/-- A plausible classifier candidate list headed by `FeatureGrid.v1` at
score 40. -/
def featureGridCandidates : List Candidate :=
  [⟨"FeatureGrid.v1", 40, ["grid_like:25", "repeat_items:15"], "Feature"⟩]

/-- Six positive-size nodes arranged in 3 columns × 2 rows (centers at
x ∈ {5, 105, 205}, y ∈ {5, 105}). -/
def gridNodes : List Node :=
  [⟨0, 0, 10, 10⟩, ⟨100, 0, 10, 10⟩, ⟨200, 0, 10, 10⟩,
   ⟨0, 100, 10, 10⟩, ⟨100, 100, 10, 10⟩, ⟨200, 100, 10, 10⟩]

/-- A 600×100 element: above the claimed `max(320, 0.4·1440) = 576`
threshold but below the code's half-viewport check (720). -/
def wideRect : Rect := { left := 0, top := 0, width := 600, height := 100 }

/-- Token colors with white background, black foreground and the default
blue primary (lightness 53). -/
def contrastColors : ThemeColors :=
  { background := "0 0% 100%", foreground := "0 0% 0%",
    primary := "221 83% 53%" }

/-! ### Claim C1 -/

/-- C1: the claim says the Hero score is a sum of fixed deltas with −25 for
high link density and −15 for a price pattern, as the reasons trace itself
records.  The source instead runs `score -= _score(..., -25, ...)`
(and likewise −15), subtracting the negative number it just recorded, so
both "penalties" RAISE the score: on a signal set with
`above_the_fold ∧ link_density > 0.08 ∧ price pattern` the recorded trace
promises 20 − 25 − 15 = −20 but the scorer returns 60. -/
theorem hero_scorer_sign_bug :
    score_hero heroBugSignals [] =
      (60, ["above_the_fold:20", "high_link_density:-25", "price_pattern:-15"]) ∧
    (20 : ℤ) + (-25) + (-15) = -20 := by
  exact ⟨by decide, by decide⟩

/-! ### Claim C2 -/

/-- C2: the claim says a section typed `Footer.v1` is never reassigned by
the Semantic Classifier stage.  The classifier-override block of
`map_sections` does the opposite: when the current type IS protected it
falls into `else: section["type"] = top_type` and reassigns
unconditionally.  Concretely, a section typed `Footer.v1` whose classifier
candidates are headed by `AnnouncementBar.v1` (score 40) is reassigned to
`AnnouncementBar.v1`. -/
theorem protected_footer_reassigned_by_classifier :
    (bannerCandidates.head?).map Candidate.type = some "AnnouncementBar.v1" ∧
    classifier_override (some "Footer.v1") bannerCandidates
      ["HeroCentered.v1", "AnnouncementBar.v1", "Footer.v1", "Navbar.v1"] =
      some "AnnouncementBar.v1" := by
  exact ⟨by decide, by decide⟩

/-! ### Claim C4 -/

/-- C4: the claim says `build_theme_tokens` never fails on malformed input,
naming a 6-character hex string with non-hex digits as an example.  But
`_hex_to_hsl` calls `int(hex_value[0:2], 16)` outside any `try`, so a
body background of `"#zzzzzz"` raises `ValueError` and aborts the whole
extraction instead of falling back to the defaults. -/
theorem token_extraction_raises_on_bad_hex :
    hex_to_hsl "#zzzzzz" =
      Except.error "ValueError: invalid literal for int() with base 16" ∧
    build_theme_tokens malformedSamples =
      Except.error "ValueError: invalid literal for int() with base 16" := by
  exact ⟨by decide, by decide⟩

/-! ### Claim C6 -/

/-- `iou` is symmetric. -/
lemma iou_comm (a b : Rect) : iou a b = iou b a := by
  simp only [iou]
  rw [max_comm a.left b.left, max_comm a.top b.top,
    min_comm a.right b.right, min_comm a.bottom b.bottom,
    add_comm ((a.right - a.left) * (a.bottom - a.top))]

/-- The suppression loop preserves the pairwise IoU bound on the accepted
list: a new rectangle is only appended when no accepted rectangle overlaps
it with IoU > 0.85. -/
lemma suppress_pairwise (rs : List Rect) (acc : List Rect)
    (h : acc.Pairwise (fun a b => iou a b ≤ 85/100)) :
    (suppress acc rs).Pairwise (fun a b => iou a b ≤ 85/100) := by
  induction rs generalizing acc with
  | nil => simpa [suppress] using h
  | cons r rs ih =>
    rw [suppress]
    split_ifs with hd
    · exact ih acc h
    · refine ih (acc ++ [r]) ?_
      rw [List.pairwise_append]
      refine ⟨h, List.pairwise_singleton _ _, ?_⟩
      intro a ha b hb
      simp only [List.mem_singleton] at hb
      subst hb
      simp only [List.any_eq_true, decide_eq_true_eq, not_exists, not_and] at hd
      exact not_lt.mp (hd a ha)

/-- The suppression loop never grows beyond the accepted plus remaining
candidates. -/
lemma suppress_length (rs : List Rect) (acc : List Rect) :
    (suppress acc rs).length ≤ acc.length + rs.length := by
  induction rs generalizing acc with
  | nil => simp [suppress]
  | cons r rs ih =>
    rw [suppress]
    split_ifs with hd
    · have := ih acc
      simp only [List.length_cons]
      omega
    · have := ih (acc ++ [r])
      simp only [List.length_append, List.length_cons, List.length_nil] at this ⊢
      omega

/-- Inserting one rectangle grows the sorted list by one. -/
lemma insertRect_length (r : Rect) (l : List Rect) :
    (insertRect r l).length = l.length + 1 := by
  induction l with
  | nil => rfl
  | cons s ss ih =>
    rw [insertRect]
    split_ifs <;> simp [ih]

/-- The candidate sort preserves length. -/
lemma sortRects_length (l : List Rect) : (sortRects l).length = l.length := by
  induction l with
  | nil => rfl
  | cons r rs ih =>
    simp only [sortRects, List.foldr_cons] at ih ⊢
    rw [insertRect_length, ih, List.length_cons]

/-- C6: for every viewport width and candidate list, any two distinct
rectangles accepted by the greedy suppression (candidates processed in
ascending-top, then descending-height order, first-seen wins) have IoU at
most 0.85 — in both argument orders — and the number of accepted sections
never exceeds the number of candidates. -/
theorem extractor_iou_suppression (viewportWidth : ℚ) (elems : List Rect) :
    (extract_section_boxes viewportWidth elems).Pairwise
      (fun a b => iou a b ≤ 85/100 ∧ iou b a ≤ 85/100) ∧
    (extract_section_boxes viewportWidth elems).length ≤ elems.length := by
  constructor
  · have h := suppress_pairwise
      (sortRects (elems.filter (pushElKeeps viewportWidth))) [] List.Pairwise.nil
    exact h.imp (fun hab => ⟨hab, by rw [iou_comm]; exact hab⟩)
  · have h1 := suppress_length
      (sortRects (elems.filter (pushElKeeps viewportWidth))) []
    rw [sortRects_length] at h1
    simp only [List.length_nil, Nat.zero_add] at h1
    exact le_trans h1 (List.length_filter_le _ _)

/-! ### Claim C3 -/

/-- A left fold of `min` is bounded by its initial value. -/
lemma foldl_min_le_init (xs : List ℚ) (x0 : ℚ) : xs.foldl min x0 ≤ x0 := by
  induction xs generalizing x0 with
  | nil => simp
  | cons a l ih => exact le_trans (ih (min x0 a)) (min_le_left _ _)

/-- A left fold of `min` is bounded by every list member. -/
lemma foldl_min_le_mem (xs : List ℚ) (x0 a : ℚ) (ha : a ∈ xs) :
    xs.foldl min x0 ≤ a := by
  induction xs generalizing x0 with
  | nil => cases ha
  | cons b l ih =>
    rcases List.mem_cons.mp ha with rfl | h
    · exact le_trans (foldl_min_le_init l (min x0 a)) (min_le_right _ _)
    · exact ih _ h

/-- A left fold of `min` is the initial value or a list member. -/
lemma foldl_min_mem (xs : List ℚ) (x0 : ℚ) :
    xs.foldl min x0 = x0 ∨ xs.foldl min x0 ∈ xs := by
  induction xs generalizing x0 with
  | nil => exact Or.inl rfl
  | cons a l ih =>
    rcases ih (min x0 a) with h | h
    · rcases min_choice x0 a with h2 | h2
      · exact Or.inl (by rw [List.foldl_cons, h, h2])
      · refine Or.inr ?_
        rw [List.foldl_cons, h, h2]
        exact List.mem_cons_self _ _
    · exact Or.inr (List.mem_cons_of_mem _ h)

/-- A left fold of `max` is at least its initial value. -/
lemma init_le_foldl_max (xs : List ℚ) (x0 : ℚ) : x0 ≤ xs.foldl max x0 := by
  induction xs generalizing x0 with
  | nil => simp
  | cons a l ih => exact le_trans (le_max_left _ _) (ih (max x0 a))

/-- A left fold of `max` is at least every list member. -/
lemma mem_le_foldl_max (xs : List ℚ) (x0 a : ℚ) (ha : a ∈ xs) :
    a ≤ xs.foldl max x0 := by
  induction xs generalizing x0 with
  | nil => cases ha
  | cons b l ih =>
    rcases List.mem_cons.mp ha with rfl | h
    · exact le_trans (le_max_right _ _) (init_le_foldl_max l (max x0 a))
    · exact ih _ h

/-- A left fold of `max` is the initial value or a list member. -/
lemma foldl_max_mem (xs : List ℚ) (x0 : ℚ) :
    xs.foldl max x0 = x0 ∨ xs.foldl max x0 ∈ xs := by
  induction xs generalizing x0 with
  | nil => exact Or.inl rfl
  | cons a l ih =>
    rcases ih (max x0 a) with h | h
    · rcases max_choice x0 a with h2 | h2
      · exact Or.inl (by rw [List.foldl_cons, h, h2])
      · refine Or.inr ?_
        rw [List.foldl_cons, h, h2]
        exact List.mem_cons_self _ _
    · exact Or.inr (List.mem_cons_of_mem _ h)

/-- A list whose dedup has at least two entries contains two different
elements. -/
lemma exists_ne_of_two_le_dedup {α : Type} [DecidableEq α] {l : List α}
    (h : 2 ≤ l.dedup.length) : ∃ a ∈ l, ∃ b ∈ l, a ≠ b := by
  match hd : l.dedup with
  | [] => rw [hd] at h; simp at h
  | [a] => rw [hd] at h; simp at h
  | a :: b :: t =>
    have hnd : l.dedup.Nodup := l.nodup_dedup
    rw [hd] at hnd
    have hab : a ≠ b := by
      intro he
      subst he
      exact (List.nodup_cons.mp hnd).1 (List.mem_cons_self _ _)
    refine ⟨a, ?_, b, ?_, hab⟩
    · exact List.mem_dedup.mp (hd ▸ List.mem_cons_self _ _)
    · exact List.mem_dedup.mp
        (hd ▸ List.mem_cons_of_mem _ (List.mem_cons_self _ _))

/-- The `<`/`≥` filters of the split test partition the centers list. -/
lemma length_filter_lt_add_ge (xs : List ℚ) (m : ℚ) :
    (xs.filter (fun x => decide (x < m))).length +
      (xs.filter (fun x => decide (m ≤ x))).length = xs.length := by
  induction xs with
  | nil => rfl
  | cons a l ih =>
    by_cases h : a < m
    · rw [List.filter_cons_of_pos (by simpa using h),
        List.filter_cons_of_neg (by simpa using not_le.mpr h)]
      simp only [List.length_cons]
      omega
    · rw [List.filter_cons_of_neg (by simpa using h),
        List.filter_cons_of_pos (by simpa using not_lt.mp h)]
      simp only [List.length_cons]
      omega

/-- C3 counterexample: six 10×10 atoms in a 3-column × 2-row arrangement
satisfy the claim's grid conditions (6 positive atoms, 3 distinct 80px
column buckets, 2 distinct row buckets) yet `_infer_layout_type` returns
`"split"`, because the split test precedes the grid test and fires
whenever ≥ 6 spread-out atoms exist. -/
theorem grid_conditions_counterexample :
    6 ≤ (nodeCentersX gridNodes).length ∧
    2 ≤ ((nodeCentersX gridNodes).map (fun x => pyRound (x / 80))).dedup.length ∧
    2 ≤ ((nodeCentersY gridNodes).map (fun y => pyRound (y / 80))).dedup.length ∧
    infer_layout_type gridNodes = "split" := by decide

/-- C3 (amended): for every section whose atoms include at least 6 atoms
with positive width and height spanning at least 2 distinct 80px column
buckets and 2 distinct row buckets, `_infer_layout_type` classifies the
layout as `split`, not `grid` — the split test precedes the grid test and
subsumes its premises.  (The claim's parenthetical about when `split` is
returned is untouched.) -/
theorem grid_conditions_classify_split (nodes : List Node)
    (h6 : 6 ≤ (nodeCentersX nodes).length)
    (hcols : 2 ≤ ((nodeCentersX nodes).map (fun x => pyRound (x / 80))).dedup.length)
    (hrows : 2 ≤ ((nodeCentersY nodes).map (fun y => pyRound (y / 80))).dedup.length) :
    infer_layout_type nodes = "split" := by
  have hxslen : (nodeCentersX nodes).length ≤ nodes.length := by
    unfold nodeCentersX
    rw [List.length_map]
    exact List.length_filter_le _ _
  have hn3 : ¬ nodes.length < 3 := by omega
  obtain ⟨u, hu, v, hv, huv⟩ := exists_ne_of_two_le_dedup hcols
  obtain ⟨x1, hx1, hfx1⟩ := List.mem_map.mp hu
  obtain ⟨x2, hx2, hfx2⟩ := List.mem_map.mp hv
  have hx12 : x1 ≠ x2 := by
    intro he
    apply huv
    rw [← hfx1, ← hfx2, he]
  rcases hxs : nodeCentersX nodes with _ | ⟨x0, xrest⟩
  · rw [hxs] at h6; simp at h6
  · rw [hxs] at h6 hx1 hx2
    unfold infer_layout_type
    rw [if_neg hn3, hxs]
    dsimp only
    set minX := xrest.foldl min x0 with hminX
    set maxX := xrest.foldl max x0 with hmaxX
    have hmin_le : ∀ a ∈ x0 :: xrest, minX ≤ a := by
      intro a ha
      rcases List.mem_cons.mp ha with rfl | h
      · exact foldl_min_le_init _ _
      · exact foldl_min_le_mem _ _ _ h
    have hle_max : ∀ a ∈ x0 :: xrest, a ≤ maxX := by
      intro a ha
      rcases List.mem_cons.mp ha with rfl | h
      · exact init_le_foldl_max _ _
      · exact mem_le_foldl_max _ _ _ h
    have hminmem : minX ∈ x0 :: xrest := by
      rcases foldl_min_mem xrest x0 with h | h
      · rw [hminX, h]; exact List.mem_cons_self _ _
      · exact List.mem_cons_of_mem _ h
    have hmaxmem : maxX ∈ x0 :: xrest := by
      rcases foldl_max_mem xrest x0 with h | h
      · rw [hmaxX, h]; exact List.mem_cons_self _ _
      · exact List.mem_cons_of_mem _ h
    have hlt : minX < maxX := by
      rcases lt_or_gt_of_ne hx12 with h | h
      · exact lt_of_le_of_lt (hmin_le x1 hx1) (lt_of_lt_of_le h (hle_max x2 hx2))
      · exact lt_of_le_of_lt (hmin_le x2 hx2) (lt_of_lt_of_le h (hle_max x1 hx1))
    have hleft : (x0 :: xrest).filter
        (fun x => decide (x < minX + (maxX - minX) * (1/2))) ≠ [] := by
      apply List.ne_nil_of_mem (a := minX)
      refine List.mem_filter.mpr ⟨hminmem, ?_⟩
      simp only [decide_eq_true_eq]
      linarith
    have hright : (x0 :: xrest).filter
        (fun x => decide (minX + (maxX - minX) * (1/2) ≤ x)) ≠ [] := by
      apply List.ne_nil_of_mem (a := maxX)
      refine List.mem_filter.mpr ⟨hmaxmem, ?_⟩
      simp only [decide_eq_true_eq]
      linarith
    have hsum : 6 ≤ ((x0 :: xrest).filter
        (fun x => decide (x < minX + (maxX - minX) * (1/2)))).length +
        ((x0 :: xrest).filter
          (fun x => decide (minX + (maxX - minX) * (1/2) ≤ x))).length := by
      rw [length_filter_lt_add_ge]
      exact h6
    split_ifs with h1 h2
    · exact absurd h1 (by linarith)
    · rfl
    all_goals exact absurd ⟨hleft, hright, hsum⟩ h2

/-- Witness for `grid_conditions_classify_split` at the 3×2 grid of
10×10 atoms. -/
theorem grid_conditions_classify_split_witness :
    infer_layout_type gridNodes = "split" :=
  grid_conditions_classify_split gridNodes (by decide) (by decide) (by decide)

/-! ### Claim C5 -/

/-- Members of an insertion are the inserted candidate or an original
member. -/
lemma mem_insertByScoreDesc {x c : Candidate} {l : List Candidate}
    (h : x ∈ insertByScoreDesc c l) : x = c ∨ x ∈ l := by
  induction l with
  | nil => simpa [insertByScoreDesc] using h
  | cons d ds ih =>
    rw [insertByScoreDesc] at h
    split_ifs at h with hcd
    · rcases List.mem_cons.mp h with h | h
      · exact Or.inr (by simp [h])
      · rcases ih h with h2 | h2
        · exact Or.inl h2
        · exact Or.inr (by simp [h2])
    · simpa [List.mem_cons] using h

/-- Insertion preserves descending sortedness by score. -/
lemma insertByScoreDesc_pairwise {c : Candidate} {l : List Candidate}
    (h : l.Pairwise (fun a b => b.score ≤ a.score)) :
    (insertByScoreDesc c l).Pairwise (fun a b => b.score ≤ a.score) := by
  induction l with
  | nil => simp [insertByScoreDesc]
  | cons d ds ih =>
    rw [List.pairwise_cons] at h
    obtain ⟨hd, hds⟩ := h
    rw [insertByScoreDesc]
    split_ifs with hcd
    · rw [List.pairwise_cons]
      refine ⟨?_, ih hds⟩
      intro b hb
      rcases mem_insertByScoreDesc hb with rfl | hbds
      · exact le_of_lt hcd
      · exact hd b hbds
    · rw [List.pairwise_cons]
      refine ⟨?_, List.pairwise_cons.mpr ⟨hd, hds⟩⟩
      intro b hb
      rcases List.mem_cons.mp hb with rfl | hbds
      · exact not_lt.mp hcd
      · exact le_trans (hd b hbds) (not_lt.mp hcd)

/-- The classifier's candidate sort is sorted descending by score. -/
lemma sortByScoreDesc_pairwise (l : List Candidate) :
    (sortByScoreDesc l).Pairwise (fun a b => b.score ≤ a.score) := by
  induction l with
  | nil => simp [sortByScoreDesc]
  | cons c cs ih =>
    simp only [sortByScoreDesc, List.foldr_cons] at ih ⊢
    exact insertByScoreDesc_pairwise ih

/-- C5 counterexample: classification of the footer-like section yields
candidates headed by `Footer.v1` at score 125; the Composer's merge then
puts the StatsKPI suggestion (integer score 60) at the head, so the merged
candidates list is NOT sorted descending by score. -/
theorem merged_candidates_not_sorted :
    ¬ ((atom_rule_stage statsAtoms ["StatsKPI.v1"] 3 "" (some "Footer.v1")
        (classify_section {} footerCtx).candidates).candidates.Pairwise
        (fun x y => y.score ≤ x.score)) := by decide

/-- C5 (amended): immediately after classification the candidates list is
sorted descending by score (a take-prefix of the stable descending sort);
the Composer's atom-rule merge then either leaves the list unchanged (no
accepted suggestion) or replaces it with the suggestion followed by the
surviving previous candidates, whose tail remains sorted descending — the
whole merged list need not be sorted. -/
theorem candidates_sorted_amended (s : Section) (c : Context)
    (a : AtomsSection) (avail : List String) (idx : ℕ) (src : String)
    (cur : Option String) (l : List Candidate)
    (hl : l.Pairwise (fun x y => y.score ≤ x.score)) :
    (classify_section s c).candidates.Pairwise (fun x y => y.score ≤ x.score) ∧
    ((atom_rule_stage a avail idx src cur l).candidates = l ∨
      ∃ t rest, (atom_rule_stage a avail idx src cur l).candidates = t :: rest ∧
        rest.Pairwise (fun x y => y.score ≤ x.score)) := by
  constructor
  · simp only [classify_section]
    exact List.Pairwise.sublist (List.take_sublist _ _) (sortByScoreDesc_pairwise _)
  · rw [atom_rule_stage]
    rcases hsug : suggest_block_from_atoms a with ⟨os, sc, fam⟩
    rcases os with _ | suggestion
    · exact Or.inl rfl
    · dsimp only
      by_cases hin : suggestion ≠ "" ∧ suggestion ∈ avail
      · rw [if_pos hin]
        refine Or.inr ⟨_, _, rfl, ?_⟩
        exact List.Pairwise.sublist
          ((List.take_sublist _ _).trans (List.filter_sublist _)) hl
      · rw [if_neg hin]
        exact Or.inl rfl

/-- Witness for `candidates_sorted_amended` at the footer-like section and
the StatsKPI atoms. -/
theorem candidates_sorted_amended_witness :
    (classify_section {} footerCtx).candidates.Pairwise
      (fun x y => y.score ≤ x.score) ∧
    ((atom_rule_stage statsAtoms ["StatsKPI.v1"] 3 "" (some "Footer.v1")
        (classify_section {} footerCtx).candidates).candidates =
      (classify_section {} footerCtx).candidates ∨
      ∃ t rest,
        (atom_rule_stage statsAtoms ["StatsKPI.v1"] 3 "" (some "Footer.v1")
          (classify_section {} footerCtx).candidates).candidates = t :: rest ∧
        rest.Pairwise (fun x y => y.score ≤ x.score)) :=
  candidates_sorted_amended {} footerCtx statsAtoms ["StatsKPI.v1"] 3 ""
    (some "Footer.v1") (classify_section {} footerCtx).candidates (by decide)

/-! ### Claim C7 -/

/-- C7 counterexample: with stats `images=6, headings=1, text=4, buttons=0,
links=0` the first LogoCloud branch fails (`texts <= 2` is violated), so
the engine returns confidence 0.65, not ≥ 0.85, and the Composer (whose
override threshold is an integer confidence ≥ 80) keeps the section typed
`FeatureGrid.v1`. -/
theorem logo_cloud_confidence_counterexample :
    suggest_block_from_atoms logoStats = (some "LogoCloud.v1", 13/20, some "Proof") ∧
    ¬ ((13 : ℚ)/20 ≥ 85/100) ∧
    (atom_rule_stage logoStats ["LogoCloud.v1", "FeatureGrid.v1"] 2 ""
        (some "FeatureGrid.v1") featureGridCandidates).type =
      some "FeatureGrid.v1" := by
  refine ⟨by decide, by norm_num, by decide⟩

/-- C7 amended: on those stats the engine flags `LogoCloud.v1` at
confidence 0.65 (the second branch `images>=5 ∧ texts<=4 ∧ headings<=2 ∧
links<=4`), and the Composer keeps `FeatureGrid.v1` as the section type
while merging the LogoCloud suggestion (integer score 65) at the head of
the candidates list. -/
theorem logo_cloud_merged_not_selected :
    suggest_block_from_atoms logoStats = (some "LogoCloud.v1", 13/20, some "Proof") ∧
    atom_rule_stage logoStats ["LogoCloud.v1", "FeatureGrid.v1"] 2 ""
        (some "FeatureGrid.v1") featureGridCandidates =
      ⟨some "FeatureGrid.v1",
       [⟨"LogoCloud.v1", 65, ["atoms_rule:65"], "Proof"⟩,
        ⟨"FeatureGrid.v1", 40, ["grid_like:25", "repeat_items:15"], "Feature"⟩]⟩ := by
  exact ⟨by decide, by decide⟩

/-! ### Claim C8 -/

/-- C8 counterexample: at viewport width 1440, a 600×100 element satisfies
the claim's acceptance condition (600 ≥ max(320, 0.4·1440) = 576 and
100 ≥ 60) yet `pushEl` rejects it, because the code uses
`Math.min(320, 0.4·vw)` plus a second `width < 0.5·vw` check
(600 < 720). -/
theorem min_size_filter_counterexample :
    pushElKeeps 1440 wideRect = false ∧
    ¬ (wideRect.height < 60 ∨ wideRect.width < max 320 ((1440 : ℚ) * (4/10))) := by
  refine ⟨by decide, ?_⟩
  simp only [wideRect]
  norm_num

/-- C8 amended: the extractor rejects a candidate exactly when its height
is under 60px, or its width is under `min(320, 40% viewport)`, or its
width is under half the viewport; for positive viewport widths this
reduces to `height < 60 ∨ width < 0.5·viewport`. -/
theorem min_size_filter_amended (vw : ℚ) (r : Rect) (hvw : 0 < vw) :
    (pushElKeeps vw r = false ↔
      (r.height < 60 ∨ r.width < min 320 (vw * (4/10)) ∨ r.width < vw * (5/10))) ∧
    (pushElKeeps vw r = false ↔ (r.height < 60 ∨ r.width < vw * (5/10))) := by
  have hle : min 320 (vw * (4/10)) ≤ vw * (5/10) := by
    rcases le_total 320 (vw * (4/10)) with h | h
    · calc min 320 (vw * (4/10)) ≤ 320 := min_le_left _ _
        _ ≤ vw * (4/10) := h
        _ ≤ vw * (5/10) := by nlinarith
    · calc min 320 (vw * (4/10)) ≤ vw * (4/10) := min_le_right _ _
        _ ≤ vw * (5/10) := by nlinarith
  unfold pushElKeeps
  constructor
  · split_ifs with h1 h2
    · simp only [eq_self_iff_true, true_iff]
      rcases h1 with h | h
      · exact Or.inl h
      · exact Or.inr (Or.inl h)
    · simp only [eq_self_iff_true, true_iff]
      exact Or.inr (Or.inr h2)
    · constructor
      · intro h; cases h
      · intro h
        rcases h with h | h | h
        · exact absurd (Or.inl h) h1
        · exact absurd (Or.inr h) h1
        · exact absurd h h2
  · split_ifs with h1 h2
    · simp only [eq_self_iff_true, true_iff]
      rcases h1 with h | h
      · exact Or.inl h
      · exact Or.inr (lt_of_lt_of_le h hle)
    · simp only [eq_self_iff_true, true_iff]
      exact Or.inr h2
    · constructor
      · intro h; cases h
      · intro h
        rcases h with h | h
        · exact absurd (Or.inl h) h1
        · exact absurd h h2

/-- Witness for `min_size_filter_amended` at viewport width 1440 and the
600×100 rectangle. -/
theorem min_size_filter_amended_witness :
    (0 : ℚ) < 1440 ∧
    (pushElKeeps 1440 wideRect = false ↔
      (wideRect.height < 60 ∨ wideRect.width < (1440 : ℚ) * (5/10))) :=
  ⟨by norm_num, (min_size_filter_amended 1440 wideRect (by norm_num)).2⟩

/-! ### Claim C9 -/

/-- C9 counterexample: with a white background (lightness 100), black
foreground (lightness 0) and the default blue primary (lightness 53), the
claimed foreground/background contrast is |0 − 100| = 100 ≥ 50 ("high"),
but `_brand_profile` compares the background against the PRIMARY lightness
(|100 − 53| = 47 < 50) and reports "low". -/
theorem contrast_ignores_foreground :
    parse_hsl contrastColors.foreground = some (0, 0, 0) ∧
    parse_hsl contrastColors.background = some (0, 0, 100) ∧
    (50 : ℤ) ≤ |(0 : ℤ) - 100| ∧
    (brand_profile contrastColors "Inter").contrast = "low" := by
  refine ⟨by decide, by decide, by decide, by decide⟩

/-- C9 amended: mood and tone are as claimed (saturation ≥ 60, lightness
≥ 60, both of the parsed-or-default primary), but the contrast flag is
"high" iff |background lightness − PRIMARY lightness| ≥ 50; the foreground
color plays no part. -/
theorem brand_profile_amended (colors : ThemeColors) (bodyFont : String) :
    ((brand_profile colors bodyFont).color_mood = "vivid" ↔
      60 ≤ ((parse_hsl colors.primary).getD (220, 60, 50)).2.1) ∧
    ((brand_profile colors bodyFont).color_tone = "bright" ↔
      60 ≤ ((parse_hsl colors.primary).getD (220, 60, 50)).2.2) ∧
    ((brand_profile colors bodyFont).contrast = "high" ↔
      50 ≤ |((parse_hsl colors.background).getD (0, 0, 100)).2.2 -
        ((parse_hsl colors.primary).getD (220, 60, 50)).2.2|) := by
  dsimp only [brand_profile]
  refine ⟨?_, ?_, ?_⟩ <;> split_ifs with h <;> simp_all

/-! ### Claim C10 -/

/-- C10: classification is deterministic — the embedding of
`classify_section` is a pure function of (section, context), so two runs
on identical inputs return identical candidate lists (types, scores,
order, families and reasons strings alike). -/
theorem classifier_deterministic (s1 s2 : Section) (c1 c2 : Context)
    (hs : s1 = s2) (hc : c1 = c2) :
    classify_section s1 c1 = classify_section s2 c2 := by
  rw [hs, hc]

/-- Witness for `classifier_deterministic` at a concrete input. -/
theorem classifier_deterministic_witness :
    classify_section { layout := { height := 50 } } { index := 0, total := 5 } =
      classify_section { layout := { height := 50 } } { index := 0, total := 5 } :=
  classifier_deterministic _ _ _ _ rfl rfl

end Shpitto
